import Mathlib

/-!
# Verification of the interceptor tracker core (`src/interceptor/gui/tracker.py`)

Shallow embedding of the streaming visualization/windowing engine of the
interceptor GUI tracker: record ingestion and deduplication
(`TrackerPanel.update_data` / `update_plot`, `TrackerWindow.onCollectorInfo`),
per-run state management (`TrackerWindow.create_new_run`), the pan/zoom/scroll
windowing handlers (`TrackChart.onSelect` / `onScroll` / `onPress`,
`TrackerWindow.onChartRange`) and the plot recomputation (`TrackChart.draw_plot`).

Modelling conventions:
* Python floats are modelled as `ℚ` (all arithmetic in these code paths is
  exact on the magnitudes involved: sums, differences, halving, and
  `int(0.1 * t)`, which agrees with truncation of `t / 10` for every value
  reachable here).
* Python `int(...)` truncation toward zero is `pyint`.
* The float `NaN` sentinel used in the `indexed` field is `Option ℚ` with
  `none` for NaN; this matches Python's container-membership semantics for
  re-delivered record objects (identity short-circuits `NaN != NaN`).
* A raised Python exception (`KeyError`, `TypeError`, `ValueError`,
  `AttributeError`) is `Except.error ()`; every handler is an
  `Except Unit`-valued state transformer.
* Rendering calls (`set_xlim`, artists, canvas, scrollbar geometry) have no
  bearing on the tracked state and are not modelled; scrollbar inputs
  (`GetThumbPosition`, `GetRange`, `GetThumbSize`) are handler parameters.
* `numpy` array append is list append; the guard `nref_x != [] and nref_y != []`
  evaluates to the truthiness of "both data vectors nonempty" and is modelled
  as such; `np.max` on a nonempty vector is `listMax` (its empty case is a
  junk value, every use site being guarded exactly as the code is).
* This source is mid-rename: `TrackerPanel` defines `chart_zoom` (a
  `ZoomCtrl`, which has no `toggle`/`ctr`), yet `onSelect` (line 203),
  `onChartRange` (line 673) and `create_new_run` (lines 722-725) still
  dereference `tracker_panel.chart_window`, an attribute that exists nowhere.
  Each of those paths therefore raises `AttributeError`. Where a claim needs
  the state at the moment of the raise (mutations before the raise persist on
  the Python objects), the handler's `Except` error payload carries that
  state; at the `onCollectorInfo` pipeline level the propagating exception is
  the bare `Except.error ()`.
-/

/- `Rat.add`/`sub`/`mul`/`inv` are `@[irreducible]` in Batteries, which blocks
kernel evaluation of concrete states by `decide`; the development only needs
them to unfold. -/
attribute [local semireducible] Rat.add Rat.sub Rat.mul Rat.inv

namespace Interceptor

instance {ε α : Type} [DecidableEq ε] [DecidableEq α] : DecidableEq (Except ε α) := fun a b =>
  match a, b with
  | .error e, .error f =>
    if h : e = f then .isTrue (congrArg Except.error h)
    else .isFalse fun hc => h (Except.error.inj hc)
  | .error _, .ok _ => .isFalse fun hc => Except.noConfusion hc
  | .ok _, .error _ => .isFalse fun hc => Except.noConfusion hc
  | .ok x, .ok y =>
    if h : x = y then .isTrue (congrArg Except.ok h)
    else .isFalse fun hc => h (Except.ok.inj hc)

/-- Python `int(q)`: truncation toward zero. -/
def pyint (q : ℚ) : ℤ := q.num.tdiv (q.den : ℤ)

/-- `max` of a list (`np.max` / Python `max`); the `[]` case is a junk value,
and every use below is guarded by nonemptiness exactly where the source
guards it (`np.max` and `max` raise on empty input). -/
def listMax {α : Type} [LinearOrder α] [Inhabited α] : List α → α
  | [] => default
  | x :: xs => xs.foldl max x

/-- One record tuple `(frame_idx, n_spots, indexed, hres)` as packed by
`TrackerWindow.onCollectorInfo` and consumed by `TrackChart.draw_plot`. -/
structure Record where
  frame_idx : ℚ
  n_spots : ℚ
  indexed : Option ℚ
  hres : ℚ
  deriving DecidableEq

/-- The summary readouts written by `draw_plot` into the tracker panel
(`count_txt`, `idx_count_txt`, `res_txt`); `none` is the initial empty label,
and the median is itself `Option`al (`none` = NaN over empty history). -/
structure Labels where
  hits : Option ℕ
  idx_count : Option ℕ
  res : Option (Option ℚ)
  deriving DecidableEq

/-- The state of one `TrackChart` (the fields mutated by the modelled
handlers; pure-rendering fields are omitted). -/
structure Chart where
  xdata : List ℚ
  ydata : List ℚ
  idata : List (Option ℚ)
  rdata : List ℚ
  x_min : ℚ
  x_max : ℚ
  y_max : ℚ
  bracket_set : Bool
  plot_zoom : Bool
  chart_range : Option ℚ
  max_lock : Bool
  deriving DecidableEq

/-- `TrackChart.reset_chart`: the initial chart state. -/
def reset_chart : Chart :=
  { xdata := [], ydata := [], idata := [], rdata := [],
    x_min := 0, x_max := 1, y_max := 1,
    bracket_set := false, plot_zoom := false, chart_range := none, max_lock := true }

/-- Data append step of `draw_plot` (`nref_x`): new x-values are appended
only when `new_data` is truthy. -/
def xdataAfter (c : Chart) (nd : List Record) : List ℚ :=
  if nd.isEmpty then c.xdata else c.xdata ++ nd.map Record.frame_idx

/-- Data append step of `draw_plot` (`nref_y`). -/
def ydataAfter (c : Chart) (nd : List Record) : List ℚ :=
  if nd.isEmpty then c.ydata else c.ydata ++ nd.map Record.n_spots

/-- Data append step of `draw_plot` (`nref_i`). -/
def idataAfter (c : Chart) (nd : List Record) : List (Option ℚ) :=
  if nd.isEmpty then c.idata else c.idata ++ nd.map Record.indexed

/-- Data append step of `draw_plot` (`self.rdata`). -/
def rdataAfter (c : Chart) (nd : List Record) : List ℚ :=
  if nd.isEmpty then c.rdata else c.rdata ++ nd.map Record.hres

/-- The "identify plotted data boundaries" step of `draw_plot`
(tracker.py lines 345-353 and 363-365): yields the new `(x_min, x_max)`.
With `plot_zoom` and `max_lock` both set, `self.x_max - self.chart_range`
raises a `TypeError` when `chart_range` is `None`. -/
def boundsAfter (c : Chart) (nd : List Record) : Except Unit (ℚ × ℚ) :=
  if (xdataAfter c nd).isEmpty || (ydataAfter c nd).isEmpty then .ok (-1, 1)
  else if c.plot_zoom then
    if c.max_lock then
      match c.chart_range with
      | none => .error ()
      | some r => .ok (listMax (xdataAfter c nd) - r, listMax (xdataAfter c nd))
    else .ok (c.x_min, c.x_max)
  else .ok (0, listMax (xdataAfter c nd) + 1)

/-- The `y_max` computation of `draw_plot` (tracker.py lines 355-358), reached
only when both data vectors are nonempty; `int(0.1 * v)` is modelled as
truncation of `v / 10` (exact for every reachable magnitude). -/
def yMaxAfter (c : Chart) (nd : List Record) (min_bragg : ℚ) : ℚ :=
  if (xdataAfter c nd).isEmpty || (ydataAfter c nd).isEmpty then c.y_max
  else if min_bragg > listMax (ydataAfter c nd) then
    min_bragg + (pyint (min_bragg / 10) : ℚ)
  else listMax (ydataAfter c nd) + (pyint (listMax (ydataAfter c nd) / 10) : ℚ)

/-- The `acc` selection of `draw_plot` (lines 369-372): in-window points at or
above the cutoff. -/
def accSel (x_min x_max min_bragg : ℚ) (xy : List (ℚ × ℚ)) : List (ℚ × ℚ) :=
  xy.filter fun i => decide (x_min < i.1 ∧ i.1 < x_max ∧ i.2 ≥ min_bragg)

/-- The `rej` selection of `draw_plot` (lines 373-376): in-window points at or
below the cutoff. -/
def rejSel (x_min x_max min_bragg : ℚ) (xy : List (ℚ × ℚ)) : List (ℚ × ℚ) :=
  xy.filter fun i => decide (x_min < i.1 ∧ i.1 < x_max ∧ i.2 ≤ min_bragg)

/-- `len(nref_i[~np.isnan(nref_i)])`: the count of non-NaN indexed entries. -/
def countIndexed (l : List (Option ℚ)) : ℕ := (l.filter fun o => o.isSome).length

/-- `np.median`: middle element of the sorted data for odd length, mean of the
two middle elements for even length, NaN (`none`) for empty input. -/
def npMedian (l : List ℚ) : Option ℚ :=
  if l.isEmpty then none
  else
    let s := l.insertionSort (· ≤ ·)
    if l.length % 2 = 1 then some (s.getD (l.length / 2) 0)
    else some ((s.getD (l.length / 2 - 1) 0 + s.getD (l.length / 2) 0) / 2)

/-- `TrackChart.draw_plot` restricted to the tracked state: appends `new_data`
to the data vectors, recomputes the window bounds and `y_max`, classifies the
in-window points against `min_bragg`, and, unless both selections are empty
(the "exit if there's nothing to plot" early return at lines 378-380),
rewrites the hit-count, indexed-count and median-resolution labels. -/
def draw_plot (min_bragg : ℚ) (new_data : List Record) (c : Chart) (lab : Labels) :
    Except Unit (Chart × Labels) :=
  match boundsAfter c new_data with
  | .error e => .error e
  | .ok (xm, xM) =>
    let c2 : Chart :=
      { c with xdata := xdataAfter c new_data, ydata := ydataAfter c new_data,
               idata := idataAfter c new_data, rdata := rdataAfter c new_data,
               x_min := xm, x_max := xM, y_max := yMaxAfter c new_data min_bragg }
    let xy := (xdataAfter c new_data).zip (ydataAfter c new_data)
    let acc := accSel xm xM min_bragg xy
    let rej := rejSel xm xM min_bragg xy
    if acc.isEmpty && rej.isEmpty then .ok (c2, lab)
    else
      .ok (c2, { hits := some acc.length,
                 idx_count := some (countIndexed (idataAfter c new_data)),
                 res := some (npMedian (rdataAfter c new_data)) })

/-- `TrackChart.onSelect` (lines 194-215): a span selection zooms only when
the truncated width `int(xmax) - int(xmin)` is at least 5; it then sets the
bounds to the truncated endpoints, enters free zoom and records
`chart_range = int(self.x_max - self.x_min)` (the same integer difference,
lines 198-202). The very next statement (line 203) reads
`self.main_window.tracker_panel.chart_window`, an attribute no object ever
defines (the panel's zoom control is `chart_zoom`), so the handler then
raises `AttributeError`: the scrollbar setup and the redraw (lines 206-215)
are unreachable. The `Except.error` payload is the state as the raise leaves
it — the bound/zoom mutations persist on the Python object. A narrower span
does nothing at all. -/
def onSelect (xmin xmax : ℚ) (c : Chart) (lab : Labels) :
    Except (Chart × Labels) (Chart × Labels) :=
  if pyint xmax - pyint xmin ≥ 5 then
    .error ({ c with x_min := (pyint xmin : ℚ), x_max := (pyint xmax : ℚ),
                     plot_zoom := true, max_lock := false,
                     chart_range := some ((pyint xmax - pyint xmin : ℤ) : ℚ) }, lab)
  else .ok (c, lab)

/-- The bound-update step of `TrackChart.onScroll` (lines 218-225): recenters
the window of width `x_max - x_min` around the scrollbar thumb, snapping to
`[0, width]` when the new left edge would be exactly 0. -/
def scrollAssign (sb_center : ℚ) (c : Chart) : Chart :=
  let half_span := (c.x_max - c.x_min) / 2
  if sb_center - half_span = 0 then { c with x_min := 0, x_max := half_span * 2 }
  else { c with x_min := sb_center - half_span, x_max := sb_center + half_span }

/-- `TrackChart.onScroll` (lines 217-233): bound update, then `max_lock` is
re-derived from the scrollbar geometry, then a redraw. -/
def onScroll (sb_center sb_range sb_thumb min_bragg : ℚ) (c : Chart) (lab : Labels) :
    Except Unit (Chart × Labels) :=
  let c2 := scrollAssign sb_center c
  let c3 : Chart := { c2 with max_lock := decide (sb_center ≥ sb_range - sb_thumb) }
  draw_plot min_bragg [] c3 lab

/-- `TrackChart.onPress` (lines 235-243): any non-left click hides the span
selector and scrollbar, leaves zoom, and redraws; a left click only makes the
span selector visible (no tracked state changes). -/
def onPress (button : ℤ) (min_bragg : ℚ) (c : Chart) (lab : Labels) :
    Except Unit (Chart × Labels) :=
  if button ≠ 1 then
    draw_plot min_bragg [] { c with bracket_set := false, plot_zoom := false } lab
  else .ok (c, lab)

/-- `TrackerWindow.onChartRange` (lines 672-680): its first statement
(line 673) reads `self.tracker_panel.chart_window.toggle`, but no panel has a
`chart_window` attribute (the zoom control is `chart_zoom`, whose `ZoomCtrl`
defines neither `toggle` nor `ctr`), so the handler raises `AttributeError`
before reading the toggle or touching any state: zoom is never activated nor
deactivated through this path. The `Except.error` payload is the unchanged
state. -/
def onChartRange (c : Chart) (lab : Labels) : Except (Chart × Labels) (Chart × Labels) :=
  .error (c, lab)

/-- The per-run state of a `TrackerPanel`: accumulated history, pending batch,
chart and label readouts. -/
structure Panel where
  run_number : ℤ
  all_data : List Record
  new_data : List Record
  chart : Chart
  labels : Labels
  deriving DecidableEq

/-- A fresh `TrackerPanel` as built by `TrackerPanel.__init__`. -/
def newPanel (n : ℤ) : Panel :=
  { run_number := n, all_data := [], new_data := [], chart := reset_chart,
    labels := { hits := none, idx_count := none, res := none } }

/-- `TrackerPanel.update_data` (lines 556-558): filters the incoming batch
against the already-stored history (tuple equality) and appends the remainder
to the pending buffer. -/
def update_data (nd : List Record) (p : Panel) : Panel :=
  { p with new_data := p.new_data ++ nd.filter fun i => decide (i ∉ p.all_data) }

/-- `TrackerPanel.update_plot` (lines 548-554): optionally resets and replays
the full history, then draws the pending batch, merges it into `all_data` and
clears the pending buffer. -/
def update_plot (min_bragg : ℚ) (reset : Bool) (p : Panel) : Except Unit Panel :=
  let step1 : Except Unit Panel :=
    if reset then
      match draw_plot min_bragg p.all_data reset_chart p.labels with
      | .error e => .error e
      | .ok (c2, lab2) => .ok { p with chart := c2, labels := lab2 }
    else .ok p
  match step1 with
  | .error e => .error e
  | .ok p1 =>
    match draw_plot min_bragg p1.new_data p1.chart p1.labels with
    | .error e => .error e
    | .ok (c2, lab2) =>
      .ok { p1 with chart := c2, labels := lab2,
                    all_data := p1.all_data ++ p1.new_data, new_data := [] }

/-- One delivery of a batch to a run: `update_data` followed by
`update_plot()` (as performed by `onCollectorInfo` plus the UI tick). -/
def deliver (min_bragg : ℚ) (batch : List Record) (p : Panel) : Except Unit Panel :=
  update_plot min_bragg false (update_data batch p)

/-- One parsed entry of the collector's `info_list`; a missing key models a
dict without that field (`info['key']` raises `KeyError`). -/
structure Info where
  run_no : Option ℤ
  frame_idx : Option ℚ
  n_spots : Option ℚ
  indexed : Option (Option ℚ)
  hres : Option ℚ
  deriving DecidableEq

/-- `TrackerWindow` state: the run registry (`track_panels`, a dict in
insertion order), the raw info log, and the currently selected panel
(modelled by its key; `none` before any panel exists). -/
structure Window where
  track_panels : List (ℤ × Panel)
  all_info : List Info
  tracker_panel : Option ℤ
  deriving DecidableEq

/-- The keys of an insertion-ordered dict. -/
def keysOf {β : Type} (m : List (ℤ × β)) : List ℤ := m.map Prod.fst

/-- Dict lookup. -/
def dictGet {β : Type} (m : List (ℤ × β)) (k : ℤ) : Option β :=
  (m.find? fun kv => kv.1 == k).map Prod.snd

/-- Dict assignment: overwrite in place, or append a new key. -/
def dictSet {β : Type} (m : List (ℤ × β)) (k : ℤ) (v : β) : List (ℤ × β) :=
  if k ∈ keysOf m then m.map fun kv => if kv.1 = k then (k, v) else kv
  else m ++ [(k, v)]

/-- The `new_data_dict` accumulation of `onCollectorInfo` (lines 769-784):
append the record to the run's entry, or start a new entry. -/
def dictPush (d : List (ℤ × List Record)) (k : ℤ) (r : Record) : List (ℤ × List Record) :=
  if k ∈ keysOf d then d.map fun kv => if kv.1 = k then (kv.1, kv.2 ++ [r]) else kv
  else d ++ [(k, [r])]

/-- The registration prefix of `TrackerWindow.create_new_run`
(lines 704-718): with no id supplied the new run id is 1 for an empty
registry and `max(existing ids) + 1` otherwise; the new panel is registered
and becomes the current panel. These mutations execute before the handler
crashes (see `create_new_run`) and persist on the Python object. -/
def register_run (w : Window) (run_no : Option ℤ) : Window :=
  let n : ℤ :=
    match run_no with
    | some n => n
    | none => if w.track_panels.isEmpty then 1 else listMax (keysOf w.track_panels) + 1
  { w with track_panels := dictSet w.track_panels n (newPanel n), tracker_panel := some n }

/-- `TrackerWindow.create_new_run` (lines 704-725): after registering and
selecting the new panel (lines 704-718, `register_run`) and binding the
min-Bragg spinner (lines 720-721, a real attribute), lines 722-723 bind
`self.tracker_panel.chart_window.ctr` — an attribute that exists nowhere —
so every call raises `AttributeError`. The `Except.error` payload is the
registered state the raise leaves behind; the function never returns
normally. -/
def create_new_run (w : Window) (run_no : Option ℤ) : Except Window Window :=
  .error (register_run w run_no)

/-- `info['key']`: a missing field raises `KeyError`. -/
def getField {α : Type} (o : Option α) : Except Unit α :=
  match o with
  | some a => .ok a
  | none => .error ()

/-- The per-info loop of `onCollectorInfo` (lines 764-784): read `run_no`,
resolve or create the run, then read the four record fields and push the
tuple onto `new_data_dict`. An unseen `run_no` calls `create_new_run`, whose
unconditional `AttributeError` propagates and aborts the loop (the
registration it performed persists on the Python object, but the batch is
never routed). -/
def collectLoop : Window → List (ℤ × List Record) → List Info →
    Except Unit (Window × List (ℤ × List Record))
  | w, d, [] => .ok (w, d)
  | w, d, info :: rest =>
    match getField info.run_no with
    | .error e => .error e
    | .ok rn =>
      match (if rn ∈ keysOf w.track_panels then .ok w else create_new_run w (some rn)) with
      | .error _ => .error ()
      | .ok w2 =>
        match getField info.frame_idx with
        | .error e => .error e
        | .ok f =>
          match getField info.n_spots with
          | .error e => .error e
          | .ok s =>
            match getField info.indexed with
            | .error e => .error e
            | .ok ix =>
              match getField info.hres with
              | .error e => .error e
              | .ok h =>
                collectLoop w2
                  (dictPush d rn { frame_idx := f, n_spots := s, indexed := ix, hres := h }) rest

/-- The "update track panel data" loop of `onCollectorInfo` (lines 787-788):
route each run's collected records to its panel via `update_data`. -/
def applyUpdates : Window → List (ℤ × List Record) → Except Unit Window
  | w, [] => .ok w
  | w, (k, recs) :: rest =>
    match dictGet w.track_panels k with
    | none => .error ()
    | some p =>
      applyUpdates { w with track_panels := dictSet w.track_panels k (update_data recs p) } rest

/-- The closing `self.tracker_panel.update_plot()` of `onCollectorInfo`
(line 791); raises `AttributeError` when no panel was ever selected. -/
def updateCurrent (min_bragg : ℚ) (w : Window) : Except Unit Window :=
  match w.tracker_panel with
  | none => .error ()
  | some k =>
    match dictGet w.track_panels k with
    | none => .error ()
    | some p =>
      match update_plot min_bragg false p with
      | .error e => .error e
      | .ok p2 => .ok { w with track_panels := dictSet w.track_panels k p2 }

/-- `TrackerWindow.onCollectorInfo` (lines 757-791): log the batch, group it
per run (creating runs lazily), route each group to its panel's pending
buffer, then redraw the currently selected panel. -/
def onCollectorInfo (w : Window) (min_bragg : ℚ) (info_list : List Info) : Except Unit Window :=
  let w0 : Window := { w with all_info := w.all_info ++ info_list }
  let step1 : Except Unit Window :=
    if info_list.isEmpty then .ok w0
    else
      match collectLoop w0 [] info_list with
      | .error e => .error e
      | .ok (w1, d) => applyUpdates w1 d
  match step1 with
  | .error e => .error e
  | .ok w2 => updateCurrent min_bragg w2

/-- An info carries every required field. -/
def wellFormed (i : Info) : Prop :=
  i.run_no.isSome ∧ i.frame_idx.isSome ∧ i.n_spots.isSome ∧ i.indexed.isSome ∧ i.hres.isSome

instance (i : Info) : Decidable (wellFormed i) := by
  unfold wellFormed; infer_instance

/-! ## Helper lemmas -/

theorem foldl_max_mem {α : Type} [LinearOrder α] (x : α) (xs : List α) :
    xs.foldl max x = x ∨ xs.foldl max x ∈ xs := by
  induction xs generalizing x with
  | nil => exact Or.inl rfl
  | cons a as ih =>
    rw [List.foldl_cons]
    rcases ih (max x a) with h | h
    · rcases max_choice x a with hm | hm
      · exact Or.inl (h.trans hm)
      · exact Or.inr (by rw [h, hm]; exact List.mem_cons_self a as)
    · exact Or.inr (List.mem_cons_of_mem a h)

theorem init_le_foldl_max {α : Type} [LinearOrder α] (x : α) (xs : List α) :
    x ≤ xs.foldl max x := by
  induction xs generalizing x with
  | nil => exact le_rfl
  | cons a as ih => exact le_trans (le_max_left x a) (ih (max x a))

theorem le_foldl_max {α : Type} [LinearOrder α] {y : α} (x : α) {xs : List α}
    (h : y = x ∨ y ∈ xs) : y ≤ xs.foldl max x := by
  induction xs generalizing x with
  | nil =>
    rcases h with rfl | h
    · exact le_rfl
    · cases h
  | cons a as ih =>
    rw [List.foldl_cons]
    rcases h with rfl | h
    · exact le_trans (le_max_left y a) (init_le_foldl_max (max y a) as)
    · rcases List.mem_cons.1 h with rfl | h2
      · exact le_trans (le_max_right x y) (init_le_foldl_max (max x y) as)
      · exact ih (max x a) (Or.inr h2)

theorem listMax_mem {α : Type} [LinearOrder α] [Inhabited α] {xs : List α}
    (h : xs.isEmpty = false) : listMax xs ∈ xs := by
  cases xs with
  | nil => simp at h
  | cons a as =>
    simp only [listMax]
    rcases foldl_max_mem a as with h2 | h2
    · rw [h2]; exact List.mem_cons_self a as
    · exact List.mem_cons_of_mem a h2

theorem le_listMax {α : Type} [LinearOrder α] [Inhabited α] {y : α} {xs : List α}
    (h : y ∈ xs) : y ≤ listMax xs := by
  cases xs with
  | nil => cases h
  | cons a as =>
    simp only [listMax]
    rcases List.mem_cons.1 h with rfl | h2
    · exact le_foldl_max y (Or.inl rfl)
    · exact le_foldl_max a (Or.inr h2)

/-- Everything `draw_plot` guarantees about a successful run: the data append,
the bound propagation, the `y_max` formula, and preservation of the zoom
bookkeeping fields. -/
theorem draw_plot_ok_parts {min_bragg : ℚ} {nd : List Record} {c : Chart} {lab : Labels}
    {c2 : Chart} {lab2 : Labels} (h : draw_plot min_bragg nd c lab = .ok (c2, lab2)) :
    boundsAfter c nd = .ok (c2.x_min, c2.x_max) ∧
    c2.xdata = xdataAfter c nd ∧ c2.ydata = ydataAfter c nd ∧
    c2.idata = idataAfter c nd ∧ c2.rdata = rdataAfter c nd ∧
    c2.y_max = yMaxAfter c nd min_bragg ∧
    c2.bracket_set = c.bracket_set ∧ c2.plot_zoom = c.plot_zoom ∧
    c2.chart_range = c.chart_range ∧ c2.max_lock = c.max_lock := by
  unfold draw_plot at h
  cases hb : boundsAfter c nd with
  | error e => rw [hb] at h; exact absurd h (by simp)
  | ok b =>
    obtain ⟨xm, xM⟩ := b
    rw [hb] at h
    dsimp only at h
    split at h <;>
      (simp only [Except.ok.injEq, Prod.mk.injEq] at h
       obtain ⟨h1, h2⟩ := h
       subst h1
       exact ⟨rfl, rfl, rfl, rfl, rfl, rfl, rfl, rfl, rfl, rfl⟩)

/-! ## C2: threshold classification of visible records -/

/-- C2: a record is classified at all iff it lies strictly inside the window
`(x_min, x_max)`; a visible record enters `acc` iff `spot_count ≥ t` and
`rej` iff `spot_count ≤ t`, so a visible record with `spot_count = t`
appears in both selections. -/
theorem classifier_window_and_threshold_spec (x_min x_max t : ℚ) (xy : List (ℚ × ℚ))
    (p : ℚ × ℚ) :
    (p ∈ accSel x_min x_max t xy ↔ p ∈ xy ∧ (x_min < p.1 ∧ p.1 < x_max) ∧ p.2 ≥ t) ∧
    (p ∈ rejSel x_min x_max t xy ↔ p ∈ xy ∧ (x_min < p.1 ∧ p.1 < x_max) ∧ p.2 ≤ t) ∧
    ((p ∈ accSel x_min x_max t xy ∨ p ∈ rejSel x_min x_max t xy) ↔
      p ∈ xy ∧ x_min < p.1 ∧ p.1 < x_max) ∧
    (p ∈ xy → x_min < p.1 → p.1 < x_max → p.2 = t →
      p ∈ accSel x_min x_max t xy ∧ p ∈ rejSel x_min x_max t xy) := by
  have hacc : p ∈ accSel x_min x_max t xy ↔
      p ∈ xy ∧ (x_min < p.1 ∧ p.1 < x_max) ∧ p.2 ≥ t := by
    simp [accSel, List.mem_filter, and_assoc]
  have hrej : p ∈ rejSel x_min x_max t xy ↔
      p ∈ xy ∧ (x_min < p.1 ∧ p.1 < x_max) ∧ p.2 ≤ t := by
    simp [rejSel, List.mem_filter, and_assoc]
  refine ⟨hacc, hrej, ⟨?_, ?_⟩, ?_⟩
  · rintro (h | h)
    · exact ⟨(hacc.1 h).1, (hacc.1 h).2.1⟩
    · exact ⟨(hrej.1 h).1, (hrej.1 h).2.1⟩
  · rintro ⟨hm, h1, h2⟩
    rcases le_total t p.2 with hle | hle
    · exact Or.inl (hacc.2 ⟨hm, ⟨h1, h2⟩, hle⟩)
    · exact Or.inr (hrej.2 ⟨hm, ⟨h1, h2⟩, hle⟩)
  · intro hm h1 h2 he
    exact ⟨hacc.2 ⟨hm, ⟨h1, h2⟩, he.ge⟩, hrej.2 ⟨hm, ⟨h1, h2⟩, he.le⟩⟩

theorem classifier_window_and_threshold_spec_witness :
    ((1 : ℚ), (10 : ℚ)) ∈ accSel 0 2 10 [((1 : ℚ), (10 : ℚ))] ∧
    ((1 : ℚ), (10 : ℚ)) ∈ rejSel 0 2 10 [((1 : ℚ), (10 : ℚ))] :=
  (classifier_window_and_threshold_spec 0 2 10 [((1 : ℚ), (10 : ℚ))] ((1 : ℚ), (10 : ℚ))).2.2.2
    (by decide) (by decide) (by decide) rfl

/-! ## C10: empty visible window leaves the summary labels untouched -/

/-- C10: when both the accepted and rejected selections over the post-merge
data are empty, `draw_plot` returns at the "nothing to plot" early exit and
the previously displayed hit-count / indexed-count / median-resolution labels
are unchanged. -/
theorem draw_plot_empty_window_keeps_labels (min_bragg : ℚ) (nd : List Record) (c : Chart)
    (lab : Labels) (xm xM : ℚ) (hb : boundsAfter c nd = .ok (xm, xM))
    (hacc : accSel xm xM min_bragg ((xdataAfter c nd).zip (ydataAfter c nd)) = [])
    (hrej : rejSel xm xM min_bragg ((xdataAfter c nd).zip (ydataAfter c nd)) = []) :
    (draw_plot min_bragg nd c lab).map Prod.snd = .ok lab := by
  unfold draw_plot
  rw [hb]
  dsimp only
  rw [hacc, hrej]
  simp [Except.map]

theorem draw_plot_empty_window_keeps_labels_witness :
    (draw_plot 10 [] reset_chart ⟨some 5, some 6, some (some 2)⟩).map Prod.snd =
      .ok ⟨some 5, some 6, some (some 2)⟩ :=
  draw_plot_empty_window_keeps_labels 10 [] reset_chart ⟨some 5, some 6, some (some 2)⟩
    (-1) 1 rfl rfl rfl

/-! ## C1: batch re-delivery and deduplication -/

/-- A successful plain `update_plot()` merges the pending buffer into
`all_data` and clears it. -/
theorem update_plot_false_ok {min_bragg : ℚ} {p q : Panel}
    (h : update_plot min_bragg false p = .ok q) :
    q.all_data = p.all_data ++ p.new_data ∧ q.new_data = [] := by
  unfold update_plot at h
  rw [if_neg (by simp)] at h
  dsimp only at h
  cases hd : draw_plot min_bragg p.new_data p.chart p.labels with
  | error e => rw [hd] at h; exact absurd h (by simp)
  | ok cl =>
    obtain ⟨c2, lab2⟩ := cl
    rw [hd] at h
    simp only [Except.ok.injEq] at h
    subst h
    exact ⟨rfl, rfl⟩

/-- C1 (amended): re-delivering the identical batch a second time (via
`update_data` then `update_plot`) leaves `all_data` unchanged after the
second delivery — every tuple of the batch is already stored, so the
dedup filter drops the whole batch. -/
theorem deliver_batch_idempotent (min_bragg : ℚ) (b : List Record) (p p1 p2 : Panel)
    (h1 : deliver min_bragg b p = .ok p1) (h2 : deliver min_bragg b p1 = .ok p2) :
    p2.all_data = p1.all_data := by
  obtain ⟨ha1, hn1⟩ := update_plot_false_ok h1
  obtain ⟨ha2, hn2⟩ := update_plot_false_ok h2
  simp only [update_data] at ha1 ha2
  have hfil : (b.filter fun i => decide (i ∉ p1.all_data)) = [] := by
    refine List.filter_eq_nil_iff.2 fun r hr => ?_
    simp only [decide_eq_true_iff, not_not]
    rw [ha1]
    by_cases hmem : r ∈ p.all_data
    · exact List.mem_append_left _ hmem
    · refine List.mem_append_right _ (List.mem_append_right _ ?_)
      exact List.mem_filter.2 ⟨hr, by simp [hmem]⟩
  rw [ha2, hn1, hfil]
  simp

/-- C1 counterexample: deduplication filters only against already-stored
data, so a tuple occurring twice within one batch is stored twice. -/
theorem dup_in_batch_stored_twice :
    (deliver 10 [⟨1, 5, none, 2⟩, ⟨1, 5, none, 2⟩] (newPanel 1)).map
      (fun p => p.all_data.count ⟨1, 5, none, 2⟩) = .ok 2 := by decide

theorem deliver_batch_idempotent_witness :
    ∃ p1 p2, deliver 10 [⟨1, 5, none, 2⟩] (newPanel 1) = .ok p1 ∧
      deliver 10 [⟨1, 5, none, 2⟩] p1 = .ok p2 ∧ p2.all_data = p1.all_data :=
  ⟨_, _, rfl, rfl, deliver_batch_idempotent 10 [⟨1, 5, none, 2⟩] (newPanel 1) _ _ rfl rfl⟩

/-! ## C3: window-bound invariants after recomputation -/

/-- C3: after a successful `draw_plot` over nonempty post-merge data,
lock-to-latest zoom pins `x_max` to the maximum stored frame index and
`x_min` to `x_max - chart_range`; inactive zoom yields the full view
`x_min = 0`, `x_max = max(frame_idx) + 1`. -/
theorem window_bounds_invariant (min_bragg : ℚ) (nd : List Record) (c : Chart) (lab : Labels)
    (c2 : Chart) (lab2 : Labels) (h : draw_plot min_bragg nd c lab = .ok (c2, lab2))
    (hx : (xdataAfter c nd).isEmpty = false) (hy : (ydataAfter c nd).isEmpty = false) :
    (∀ r, c.plot_zoom = true → c.max_lock = true → c.chart_range = some r →
      c2.x_max ∈ xdataAfter c nd ∧ (∀ v ∈ xdataAfter c nd, v ≤ c2.x_max) ∧
      c2.x_min = c2.x_max - r) ∧
    (c.plot_zoom = false →
      c2.x_min = 0 ∧ c2.x_max = listMax (xdataAfter c nd) + 1 ∧
      listMax (xdataAfter c nd) ∈ xdataAfter c nd ∧
      ∀ v ∈ xdataAfter c nd, v ≤ listMax (xdataAfter c nd)) := by
  obtain ⟨hb, -, -, -, -, -, -, -, -, -⟩ := draw_plot_ok_parts h
  unfold boundsAfter at hb
  rw [hx, hy] at hb
  constructor
  · intro r hz hl hcr
    rw [hz, hl, hcr] at hb
    simp only [Bool.or_self, Bool.false_eq_true, if_false, if_true,
      Except.ok.injEq, Prod.mk.injEq] at hb
    obtain ⟨h1, h2⟩ := hb
    rw [← h2]
    exact ⟨listMax_mem hx, fun v hv => le_listMax hv, by rw [← h1]⟩
  · intro hz
    rw [hz] at hb
    simp only [Bool.or_self, Bool.false_eq_true, if_false,
      Except.ok.injEq, Prod.mk.injEq] at hb
    obtain ⟨h1, h2⟩ := hb
    exact ⟨h1.symm, h2.symm, listMax_mem hx, fun v hv => le_listMax hv⟩

def c3zoom : Chart :=
  { xdata := [1, 4], ydata := [2, 3], idata := [none, none], rdata := [1, 1],
    x_min := 0, x_max := 5, y_max := 1,
    bracket_set := false, plot_zoom := true, chart_range := some 3, max_lock := true }

def c3full : Chart :=
  { xdata := [1, 4], ydata := [2, 3], idata := [none, none], rdata := [1, 1],
    x_min := 0, x_max := 5, y_max := 1,
    bracket_set := false, plot_zoom := false, chart_range := none, max_lock := true }

theorem window_bounds_invariant_witness :
    (∃ c2 lab2, draw_plot 10 [] c3zoom ⟨none, none, none⟩ = .ok (c2, lab2) ∧
      c2.x_max ∈ xdataAfter c3zoom [] ∧ c2.x_min = c2.x_max - 3) ∧
    (∃ c2 lab2, draw_plot 10 [] c3full ⟨none, none, none⟩ = .ok (c2, lab2) ∧
      c2.x_min = 0 ∧ c2.x_max = listMax (xdataAfter c3full []) + 1) := by
  constructor
  · refine ⟨_, _, rfl, ?_, ?_⟩
    · exact ((window_bounds_invariant 10 [] c3zoom ⟨none, none, none⟩ _ _
        rfl rfl rfl).1 3 rfl rfl rfl).1
    · exact ((window_bounds_invariant 10 [] c3zoom ⟨none, none, none⟩ _ _
        rfl rfl rfl).1 3 rfl rfl rfl).2.2
  · refine ⟨_, _, rfl, ?_, ?_⟩
    · exact ((window_bounds_invariant 10 [] c3full ⟨none, none, none⟩ _ _
        rfl rfl rfl).2 rfl).1
    · exact ((window_bounds_invariant 10 [] c3full ⟨none, none, none⟩ _ _
        rfl rfl rfl).2 rfl).2.1

/-! ## C4: the y bound -/

/-- C4 (amended): the y bound is computed from the full data history, not the
visible window: `y_max = t + trunc(t/10)` when `t` exceeds the maximum stored
spot count, else `M + trunc(M/10)` with `M` the full-history maximum; it is
recomputed whenever the history is nonempty, visible records or not. -/
theorem y_bound_full_history (min_bragg : ℚ) (nd : List Record) (c : Chart) (lab : Labels)
    (c2 : Chart) (lab2 : Labels) (h : draw_plot min_bragg nd c lab = .ok (c2, lab2))
    (hx : (xdataAfter c nd).isEmpty = false) (hy : (ydataAfter c nd).isEmpty = false) :
    c2.y_max = (if min_bragg > listMax (ydataAfter c nd) then
        min_bragg + (pyint (min_bragg / 10) : ℚ)
      else listMax (ydataAfter c nd) + (pyint (listMax (ydataAfter c nd) / 10) : ℚ)) ∧
    listMax (ydataAfter c nd) ∈ ydataAfter c nd ∧
    (∀ v ∈ ydataAfter c nd, v ≤ listMax (ydataAfter c nd)) := by
  obtain ⟨-, -, -, -, -, hym, -, -, -, -⟩ := draw_plot_ok_parts h
  refine ⟨?_, listMax_mem hy, fun v hv => le_listMax hv⟩
  rw [hym]
  unfold yMaxAfter
  rw [hx, hy]
  simp

def c4chart : Chart :=
  { xdata := [1, 10], ydata := [100, 5], idata := [none, none], rdata := [2, 2],
    x_min := 5, x_max := 15, y_max := 1,
    bracket_set := false, plot_zoom := true, chart_range := some 10, max_lock := false }

/-- C4 counterexample: with threshold 10 and window (5, 15), the only visible
record has spot count 5, so the claim's visible-max formula gives
`y_max = 10 + trunc(10/10) = 11`; the code instead uses the full-history
maximum 100 and produces `y_max = 110`. -/
theorem y_bound_not_visible_max :
    (draw_plot 10 [] c4chart ⟨none, none, none⟩).map (fun p => p.1.y_max) = .ok 110 ∧
    accSel 5 15 10 (c4chart.xdata.zip c4chart.ydata) ++
      rejSel 5 15 10 (c4chart.xdata.zip c4chart.ydata) = [(10, 5)] ∧
    (110 : ℚ) ≠ 10 + (pyint ((10 : ℚ) / 10) : ℚ) :=
  ⟨by decide, by decide, by decide⟩

theorem y_bound_full_history_witness :
    ∃ c2 lab2, draw_plot 10 [] c4chart ⟨none, none, none⟩ = .ok (c2, lab2) ∧
      c2.y_max = 110 := by
  refine ⟨_, _, rfl, ?_⟩
  rw [(y_bound_full_history 10 [] c4chart ⟨none, none, none⟩ _ _ rfl rfl rfl).1]
  decide

/-! ## C7: zoom-span selection -/

/-- C7 (amended): `onSelect` is a no-op iff the truncated width
`int(s_max) - int(s_min)` is below 5; otherwise it mutates the chart into the
zoomed-free state — `x_min = int(s_min)`, `x_max = int(s_max)`,
`chart_range = int(s_max) - int(s_min)` — and then raises `AttributeError`
from the dangling `chart_window` reference at line 203, before the scrollbar
setup or any redraw; the mutated bounds persist in the raised state. -/
theorem span_selection_spec (xmin xmax : ℚ) (c : Chart) (lab : Labels) :
    (pyint xmax - pyint xmin < 5 → onSelect xmin xmax c lab = .ok (c, lab)) ∧
    (pyint xmax - pyint xmin ≥ 5 →
      ∃ c2, onSelect xmin xmax c lab = .error (c2, lab) ∧
        c2.x_min = (pyint xmin : ℚ) ∧ c2.x_max = (pyint xmax : ℚ) ∧
        c2.plot_zoom = true ∧ c2.max_lock = false ∧
        c2.chart_range = some ((pyint xmax - pyint xmin : ℤ) : ℚ) ∧
        c2.xdata = c.xdata ∧ c2.ydata = c.ydata ∧ c2.y_max = c.y_max) := by
  constructor
  · intro h5
    unfold onSelect
    rw [if_neg (not_le.2 h5)]
  · intro h5
    unfold onSelect
    rw [if_pos h5]
    exact ⟨_, rfl, rfl, rfl, rfl, rfl, rfl, rfl, rfl, rfl⟩

def c7chart : Chart :=
  { xdata := [3], ydata := [4], idata := [none], rdata := [1],
    x_min := 0, x_max := 1, y_max := 1,
    bracket_set := false, plot_zoom := false, chart_range := none, max_lock := true }

/-- C7 counterexample: the span [0.9, 5.8] has width 4.9 < 5, so the claim
demands a no-op; the code compares the truncated ints 5 - 0 = 5 ≥ 5 and
mutates the chart into zoom — bounds (0, 5), not (0.9, 5.8) — before raising
`AttributeError` on the dangling `chart_window` binding. -/
theorem narrow_span_not_noop :
    (58 : ℚ) / 10 - 9 / 10 < 5 ∧
    (∃ c2 lab2, onSelect (9 / 10) (58 / 10) c7chart ⟨none, none, none⟩ = .error (c2, lab2) ∧
      c2.plot_zoom = true ∧ c2.x_min = 0 ∧ c2.x_max = 5) ∧
    c7chart.plot_zoom = false :=
  ⟨by decide, ⟨_, _, rfl, by decide, by decide, by decide⟩, rfl⟩

theorem span_selection_spec_witness :
    onSelect 0 3 c7chart ⟨none, none, none⟩ = .ok (c7chart, ⟨none, none, none⟩) ∧
    (∃ c2, onSelect (9 / 10) (58 / 10) c7chart ⟨none, none, none⟩ =
        .error (c2, ⟨none, none, none⟩) ∧
      c2.x_min = (pyint ((9 : ℚ) / 10) : ℚ) ∧ c2.x_max = (pyint ((58 : ℚ) / 10) : ℚ) ∧
      c2.plot_zoom = true ∧ c2.max_lock = false ∧
      c2.chart_range = some ((pyint ((58 : ℚ) / 10) - pyint ((9 : ℚ) / 10) : ℤ) : ℚ) ∧
      c2.xdata = c7chart.xdata ∧ c2.ydata = c7chart.ydata ∧ c2.y_max = c7chart.y_max) :=
  ⟨(span_selection_spec 0 3 c7chart ⟨none, none, none⟩).1 (by decide),
   (span_selection_spec (9 / 10) (58 / 10) c7chart ⟨none, none, none⟩).2 (by decide)⟩

/-! ## C8: scroll recentering -/

/-- C8: while zoomed with the window width equal to `chart_range = r`, a
scroll to center `c` moves the bounds to `(c - r/2, c + r/2)`, except that a
zero left edge snaps to `(0, r)`; no other clamping happens. The same bounds
survive the full handler (including its redraw) whenever the scroll does not
engage the max lock and the chart has data. -/
theorem scroll_bounds_spec (c : Chart) (r sb_center : ℚ) (hr : c.x_max - c.x_min = r) :
    (((scrollAssign sb_center c).x_min, (scrollAssign sb_center c).x_max) =
      if sb_center - r / 2 = 0 then ((0 : ℚ), r)
      else (sb_center - r / 2, sb_center + r / 2)) ∧
    (∀ sb_range sb_thumb min_bragg lab c2 lab2,
      c.plot_zoom = true → sb_center < sb_range - sb_thumb →
      c.xdata.isEmpty = false → c.ydata.isEmpty = false →
      onScroll sb_center sb_range sb_thumb min_bragg c lab = .ok (c2, lab2) →
      (c2.x_min, c2.x_max) =
        if sb_center - r / 2 = 0 then ((0 : ℚ), r)
        else (sb_center - r / 2, sb_center + r / 2)) := by
  have hassign : ((scrollAssign sb_center c).x_min, (scrollAssign sb_center c).x_max) =
      if sb_center - r / 2 = 0 then ((0 : ℚ), r)
      else (sb_center - r / 2, sb_center + r / 2) := by
    unfold scrollAssign
    rw [hr]
    dsimp only
    split_ifs with h
    · simp [div_mul_cancel₀]
    · rfl
  refine ⟨hassign, ?_⟩
  intro sb_range sb_thumb min_bragg lab c2 lab2 hz hlt hxe hye h
  unfold onScroll at h
  dsimp only at h
  obtain ⟨hb, -, -, -, -, -, -, -, -, -⟩ := draw_plot_ok_parts h
  have hb2 : boundsAfter
      { scrollAssign sb_center c with
        max_lock := decide (sb_center ≥ sb_range - sb_thumb) } [] =
      .ok ((scrollAssign sb_center c).x_min, (scrollAssign sb_center c).x_max) := by
    have hxd : (scrollAssign sb_center c).xdata = c.xdata := by
      unfold scrollAssign; dsimp only; split_ifs <;> rfl
    have hyd : (scrollAssign sb_center c).ydata = c.ydata := by
      unfold scrollAssign; dsimp only; split_ifs <;> rfl
    have hzd : (scrollAssign sb_center c).plot_zoom = c.plot_zoom := by
      unfold scrollAssign; dsimp only; split_ifs <;> rfl
    unfold boundsAfter xdataAfter ydataAfter
    simp only [List.isEmpty_nil, if_true]
    show (if ((scrollAssign sb_center c).xdata.isEmpty ||
        (scrollAssign sb_center c).ydata.isEmpty) = true then _ else _) = _
    rw [hxd, hyd, hxe, hye]
    simp only [Bool.or_self, Bool.false_eq_true, if_false]
    show (if (scrollAssign sb_center c).plot_zoom = true then _ else _) = _
    rw [hzd, hz]
    simp only [if_true]
    show (if decide (sb_center ≥ sb_range - sb_thumb) = true then _ else _) = _
    rw [decide_eq_false (not_le.2 hlt)]
    simp
  rw [hb2] at hb
  simp only [Except.ok.injEq, Prod.mk.injEq] at hb
  rw [← hassign]
  exact Prod.ext hb.1.symm hb.2.symm

def c8chart : Chart :=
  { xdata := [3], ydata := [4], idata := [none], rdata := [1],
    x_min := 2, x_max := 12, y_max := 1,
    bracket_set := false, plot_zoom := true, chart_range := some 10, max_lock := false }

theorem scroll_bounds_spec_witness :
    (((scrollAssign 30 c8chart).x_min, (scrollAssign 30 c8chart).x_max) = ((25 : ℚ), 35)) ∧
    (∃ c2 lab2, onScroll 30 100 50 10 c8chart ⟨none, none, none⟩ = .ok (c2, lab2) ∧
      (c2.x_min, c2.x_max) = ((25 : ℚ), 35)) := by
  constructor
  · rw [(scroll_bounds_spec c8chart 10 30 (by decide)).1]
    decide
  · refine ⟨_, _, rfl, ?_⟩
    rw [(scroll_bounds_spec c8chart 10 30 (by decide)).2 100 50 10
      ⟨none, none, none⟩ _ _ rfl (by decide) rfl rfl rfl]
    decide

/-! ## C9: zoom deactivation and chart_range -/

def c9chart : Chart :=
  { xdata := [3], ydata := [4], idata := [none], rdata := [1],
    x_min := 0, x_max := 10, y_max := 1,
    bracket_set := false, plot_zoom := true, chart_range := some 50, max_lock := false }

/-- C9 counterexample: deactivating zoom by a non-left click leaves the
previous `chart_range = 50` in place, and the range-toggle path cannot
deactivate zoom at all — `onChartRange` raises `AttributeError` before
reading the toggle, leaving `plot_zoom` true and the whole state untouched;
both contradict "transitions to full view and clears chart_range". -/
theorem zoom_deactivation_keeps_chart_range :
    (onPress 3 10 c9chart ⟨none, none, none⟩).map
      (fun p => (p.1.plot_zoom, p.1.chart_range)) = .ok (false, some 50) ∧
    onChartRange c9chart ⟨none, none, none⟩ = .error (c9chart, ⟨none, none, none⟩) ∧
    c9chart.plot_zoom = true ∧
    some (50 : ℚ) ≠ none :=
  ⟨by decide, rfl, rfl, by decide⟩

/-- C9 (amended): right-click cancel (`onPress` with a non-left button) sets
`plot_zoom` to false — full view at the next recomputation — but does NOT
clear `chart_range`, which keeps its last value; the range-toggle handler
(`onChartRange`) raises `AttributeError` at its first statement (dangling
`chart_window` reference at line 673) and so never deactivates zoom nor
touches any state; `chart_range` is cleared only by `reset_chart`. -/
theorem zoom_deactivation_spec (button : ℤ) (min_bragg : ℚ) (c : Chart)
    (lab : Labels) :
    (∀ c2 lab2, button ≠ 1 → onPress button min_bragg c lab = .ok (c2, lab2) →
      c2.plot_zoom = false ∧ c2.chart_range = c.chart_range) ∧
    onChartRange c lab = .error (c, lab) ∧
    reset_chart.chart_range = none := by
  refine ⟨?_, rfl, rfl⟩
  intro c2 lab2 hbtn h
  unfold onPress at h
  rw [if_pos hbtn] at h
  obtain ⟨-, -, -, -, -, -, -, hpz, hcr, -⟩ := draw_plot_ok_parts h
  exact ⟨hpz, hcr⟩

theorem zoom_deactivation_spec_witness :
    ∃ c2 lab2, onPress 3 10 c9chart ⟨none, none, none⟩ = .ok (c2, lab2) ∧
      c2.plot_zoom = false ∧ c2.chart_range = c9chart.chart_range := by
  refine ⟨_, _, rfl, ?_⟩
  exact (zoom_deactivation_spec 3 10 c9chart ⟨none, none, none⟩).1 _ _ (by decide) rfl

/-! ## C6: run creation -/

def w6start : Window :=
  { track_panels := [(3, newPanel 3)], all_info := [], tracker_panel := some 3 }

def batch6 : List Info :=
  [⟨some 7, some 1, some 5, some none, some 2⟩,
   ⟨some 7, some 2, some 6, some none, some 2⟩,
   ⟨some 3, some 1, some 4, some (some 0), some 2⟩]

/-- C6 (code bug): the registration logic is real — an unseen `run_no` yields
exactly one new panel under the supplied id (or `max(existing ids) + 1`,
starting at 1, when none is supplied), and the panel becomes current — but
`create_new_run` then binds `self.tracker_panel.chart_window.ctr`
(lines 722-725), an attribute that exists nowhere, so every run creation
raises `AttributeError` and a batch carrying an unseen run id aborts before
any record of it is routed. -/
theorem run_creation_crashes :
    (∀ (w : Window) (rn : Option ℤ), create_new_run w rn = .error (register_run w rn)) ∧
    onCollectorInfo w6start 10 batch6 = .error () ∧
    keysOf (register_run w6start (some 7)).track_panels = [3, 7] ∧
    (register_run w6start (some 7)).tracker_panel = some 7 ∧
    keysOf (register_run w6start none).track_panels = [3, 4] ∧
    keysOf (register_run ⟨[], [], none⟩ none).track_panels = [1] :=
  ⟨fun _ _ => rfl, by decide, by decide, by decide, by decide, by decide⟩

/-! ## C5: malformed records -/

theorem collectLoop_malformed : ∀ (il : List Info) (w : Window)
    (d : List (ℤ × List Record)), (∃ i ∈ il, ¬wellFormed i) →
    collectLoop w d il = .error () := by
  intro il
  induction il with
  | nil =>
    intro w d h
    obtain ⟨i, hi, -⟩ := h
    cases hi
  | cons info rest ih =>
    intro w d h
    cases hr : info.run_no with
    | none => simp [collectLoop, getField, hr]
    | some rn =>
      by_cases hmem : rn ∈ keysOf w.track_panels
      · cases hf : info.frame_idx with
        | none => simp [collectLoop, getField, hr, hf, hmem]
        | some f =>
          cases hs : info.n_spots with
          | none => simp [collectLoop, getField, hr, hf, hs, hmem]
          | some sv =>
            cases hx : info.indexed with
            | none => simp [collectLoop, getField, hr, hf, hs, hx, hmem]
            | some ix =>
              cases hh : info.hres with
              | none => simp [collectLoop, getField, hr, hf, hs, hx, hh, hmem]
              | some hv =>
                obtain ⟨i, hi, hwf⟩ := h
                rcases List.mem_cons.1 hi with rfl | hir
                · exact absurd ⟨by simp [hr], by simp [hf], by simp [hs],
                    by simp [hx], by simp [hh]⟩ hwf
                · have hstep : collectLoop w d (info :: rest) =
                      collectLoop w (dictPush d rn ⟨f, sv, ix, hv⟩) rest := by
                    simp [collectLoop, getField, hr, hf, hs, hx, hh, hmem]
                  rw [hstep]
                  exact ih _ _ ⟨i, hir, hwf⟩
      · simp [collectLoop, getField, hr, hmem, create_new_run]

/-- C5 (amended): a record missing a required field raises `KeyError` inside
the grouping loop, aborting the whole delivery — the handler terminates
exceptionally, and no record of that batch (not even a well-formed one) is
routed to any panel. -/
theorem malformed_record_aborts_batch (w : Window) (min_bragg : ℚ) (il : List Info)
    (h : ∃ i ∈ il, ¬wellFormed i) : onCollectorInfo w min_bragg il = .error () := by
  have hne : il.isEmpty = false := by
    obtain ⟨i, hi, -⟩ := h
    cases il
    · cases hi
    · rfl
  unfold onCollectorInfo
  dsimp only
  rw [hne, if_neg (show ¬(false = true) by simp)]
  rw [collectLoop_malformed il _ [] h]

/-- A window with run 1 already registered, so that the abort below comes
from the missing field itself, not from `create_new_run`'s own crash. -/
def w5start : Window :=
  { track_panels := [(1, newPanel 1)], all_info := [], tracker_panel := some 1 }

def goodInfo : Info := ⟨some 1, some 1, some 5, some none, some 2⟩

def badInfo : Info := ⟨some 1, none, some 6, some none, some 2⟩

/-- C5 counterexample: a batch [well-formed, malformed] is not partially
ingested and the stream is not continued — the missing `frame_idx` aborts the
whole handler with an exception. -/
theorem malformed_record_not_dropped :
    onCollectorInfo w5start 10 [goodInfo, badInfo] = .error () ∧
    ¬wellFormed badInfo ∧ wellFormed goodInfo :=
  ⟨by decide, by decide, by decide⟩

theorem malformed_record_aborts_batch_witness :
    onCollectorInfo w5start 10 [badInfo] = .error () :=
  malformed_record_aborts_batch w5start 10 [badInfo] ⟨badInfo, by decide, by decide⟩

end Interceptor

